import Mathlib

/-!
Shallow embedding of the check engine of `data_checker.py` (kuwaharu-git/data-check).

The embedding models a pandas `DataFrame` as a `Table`: a row count together with an
ordered list of named columns.  A column records its dtype flag (`isNumeric`, the
embedding of `pd.api.types.is_numeric_dtype`) and the ordered cells, each either
`none` (a missing value, pandas `NaN`/`None`) or `some` cell value.  Row indices are
the default `RangeIndex` 0,1,2,… of `pd.read_csv`, i.e. list positions.

Numeric quantities are modelled exactly, with `ℚ` in place of IEEE floats.  The one
place where the code computes an irrational number is `std = sqrt(variance)`; the
embedding carries the (rational) sample variance through the computation and keeps
the source's comparisons in their exact-arithmetic form (`zExceeds`), proving the
equivalence with the `|value - mean| / sqrt(variance) > threshold` formula over ℝ
(`zExceeds_eq_true_iff`).  For a single non-missing value pandas returns `std = NaN`,
which fails the `std > 0` test; in the embedding the `n - 1` denominator is `0` and
rational division by zero yields `0`, which fails `0 < svar` the same way.
-/

set_option linter.unusedVariables false

attribute [local semireducible] Rat.mul Rat.inv Rat.add Rat.sub

/-- A present cell value: numeric (modelled as `ℚ`) or non-numeric (text). -/
inductive Cell where
  | num (q : ℚ)
  | str (s : String)
deriving DecidableEq, Repr

/-- Numeric content of a cell; non-numeric cells never reach this in a
well-typed numeric-dtype column. -/
def Cell.toRat : Cell → ℚ
  | .num q => q
  | .str _ => 0

/-- One column of a DataFrame: the dtype flag `is_numeric_dtype` and the cells in
row order (`none` = missing). -/
structure Column where
  isNumeric : Bool
  cells : List (Option Cell)
deriving DecidableEq, Repr

/-- A DataFrame: row count (`len(df)`) and named columns in order (`df.columns`). -/
structure Table where
  nrows : Nat
  cols : List (String × Column)
deriving DecidableEq, Repr

/-- Every column has exactly `nrows` cells (always true of a pandas DataFrame). -/
def Table.wf (df : Table) : Bool :=
  df.cols.all fun p => p.2.cells.length = df.nrows

/-- `series.dropna()` keeping the original row index: the (index, value) pairs of
the non-missing cells, in row order. -/
def nonNullIdx (cells : List (Option Cell)) : List (Nat × Cell) :=
  cells.enum.filterMap fun p => p.2.map fun v => (p.1, v)

/-- `df[null_mask].index.tolist()`: the row indices of the missing cells, in row
order, untruncated. -/
def nullIdxAll (cells : List (Option Cell)) : List Nat :=
  (cells.enum.filter fun p => p.2.isNone).map Prod.fst

/-- Fuel-driven worker for `uniqueFirst` (structural recursion, so that concrete
instances reduce in the kernel).  The fuel is never exhausted when it starts at
the list's length, since `filter` never lengthens a list. -/
def uniqueFirstF {α : Type} [DecidableEq α] : Nat → List α → List α
  | _, [] => []
  | 0, _ :: _ => []
  | n + 1, a :: t => a :: uniqueFirstF n (t.filter fun b => b ≠ a)

/-- `series.unique()`: the distinct values in first-occurrence order. -/
def uniqueFirst {α : Type} [DecidableEq α] (l : List α) : List α :=
  uniqueFirstF l.length l

/-- Result of `check_null` for one column (the dict built at lines 111-116). -/
structure NullResult where
  null_count : Nat
  total_count : Nat
  null_ratio : ℚ
  null_indices : List Nat
deriving DecidableEq, Repr

/-- Result of `check_duplicates` for one column (the dict built at lines 144-150).
`duplicate_count` is computed in `Int` as in Python, where `-` does not truncate. -/
structure DupResult where
  total_count : Nat
  unique_count : Nat
  duplicate_count : Int
  duplicate_ratio : ℚ
  duplicated_values : List Cell
deriving DecidableEq, Repr

/-- Result of `check_outliers` for one column: one constructor per literal dict in
the source (lines 191-199, 202-211, 213-219, 222-224).  The `stats` constructor
carries the sample variance `svar`; the `std` the code reports is `Real.sqrt svar`
(see the header comment).  In `zeroVariance` the code writes the literal `0.0` for
`std`, which the constructor carries as a `ℚ` field. -/
inductive OutlierResult where
  | stats (outlier_count : Nat) (total_count : Nat) (outlier_ratio : ℚ)
      (outlier_indices : List Nat) (mean : ℚ) (svar : ℚ) (threshold : ℚ)
  | zeroVariance (outlier_count : Nat) (total_count : Nat) (outlier_ratio : ℚ)
      (outlier_indices : List Nat) (mean : ℚ) (std : ℚ) (threshold : ℚ) (note : String)
  | noData (outlier_count : Nat) (total_count : Nat) (outlier_ratio : ℚ)
      (outlier_indices : List Nat) (note : String)
  | notNumeric (note : String)
deriving DecidableEq, Repr

/-- The outlier count reported by an outlier result (`notNumeric` has none; it
contributes 0). -/
def OutlierResult.countOf : OutlierResult → Nat
  | .stats oc _ _ _ _ _ _ => oc
  | .zeroVariance oc _ _ _ _ _ _ _ => oc
  | .noData oc _ _ _ _ => oc
  | .notNumeric _ => 0

/-- The `total_count` field of an outlier result, when present. -/
def OutlierResult.totalOf : OutlierResult → Option Nat
  | .stats _ tc _ _ _ _ _ => some tc
  | .zeroVariance _ tc _ _ _ _ _ _ => some tc
  | .noData _ tc _ _ _ => some tc
  | .notNumeric _ => none

/-- The `outlier_ratio` field of an outlier result, when present. -/
def OutlierResult.ratioOf : OutlierResult → Option ℚ
  | .stats _ _ r _ _ _ _ => some r
  | .zeroVariance _ _ r _ _ _ _ _ => some r
  | .noData _ _ r _ _ => some r
  | .notNumeric _ => none

/-- Loop body of `check_null` (lines 104-116): `null_mask = isna()`,
`null_count = mask.sum()`, `total_count = len(df)`,
`null_ratio = null_count / total_count if total_count > 0 else 0`,
`null_indices = df[null_mask].index.tolist()[:100]`. -/
def check_null_col (nrows : Nat) (cells : List (Option Cell)) : NullResult :=
  let null_count := cells.countP fun o => o.isNone
  { null_count := null_count
    total_count := nrows
    null_ratio := if 0 < nrows then (null_count : ℚ) / (nrows : ℚ) else 0
    null_indices := (nullIdxAll cells).take 100 }

/-- `check_null` (lines 92-118): the loop over `df.columns`. -/
def check_null (df : Table) : List (String × NullResult) :=
  df.cols.map fun p => (p.1, check_null_col df.nrows p.2.cells)

/-- Loop body of `check_duplicates` (lines 133-150): `dropna()`, `len`, `nunique()`,
`duplicate_count = total - unique`,
`duplicate_ratio = duplicate_count / total_count if total_count > 0 else 0`,
`duplicated_values = series[series.duplicated(keep=False)].unique()[:100]`
(the distinct values occurring more than once, in first-occurrence order). -/
def check_duplicates_col (cells : List (Option Cell)) : DupResult :=
  let vals := cells.filterMap id
  let total_count := vals.length
  let unique_count := (uniqueFirst vals).length
  let duplicate_count : Int := (total_count : Int) - (unique_count : Int)
  { total_count := total_count
    unique_count := unique_count
    duplicate_count := duplicate_count
    duplicate_ratio :=
      if 0 < total_count then (duplicate_count : ℚ) / (total_count : ℚ) else 0
    duplicated_values := (uniqueFirst (vals.filter fun v => 1 < vals.count v)).take 100 }

/-- `check_duplicates` (lines 121-152): the loop over `df.columns`. -/
def check_duplicates (df : Table) : List (String × DupResult) :=
  df.cols.map fun p => (p.1, check_duplicates_col p.2.cells)

/-- Exact-arithmetic form of the source's test
`abs((value - mean) / std) > threshold` with `std = sqrt(svar)`, `svar > 0`:
for `t < 0` the nonnegative z-score always exceeds `t`; for `0 ≤ t` squaring both
sides of `|dev| > t * sqrt(svar)` gives `dev^2 > t^2 * svar`.  The equivalence with
the real-valued formula is `zExceeds_eq_true_iff` below. -/
def zExceeds (dev svar t : ℚ) : Bool :=
  decide (t < 0) || decide (t ^ 2 * svar < dev ^ 2)

/-- `non_null_series.mean()` (line 178): arithmetic mean of the non-missing values. -/
def colMean (col : Column) : ℚ :=
  let xs := (nonNullIdx col.cells).map fun p => p.2.toRat
  xs.sum / (xs.length : ℚ)

/-- The square of `non_null_series.std()` (line 179): the sample variance, with
denominator `n - 1` (`ddof=1`, the pandas default).  For `n = 1` the `Nat`
subtraction makes the denominator 0 and the rational division yields 0, matching
the way pandas' `NaN` falls into the `std > 0 == False` branch. -/
def colSVar (col : Column) : ℚ :=
  let xs := (nonNullIdx col.cells).map fun p => p.2.toRat
  (xs.map fun x => (x - colMean col) ^ 2).sum / ((xs.length - 1 : Nat) : ℚ)

/-- Loop body of `check_outliers` (lines 170-224): dtype test, `dropna()`, `mean()`,
`std()` (sample, `ddof=1`), the `std > 0` split (`0 < svar` iff `0 < std`), the
z-score mask `abs((x - mean)/std) > threshold` in exact form, `outlier_indices`
from the original row index (`[:100]`),
`outlier_ratio = count / len(df) if len(df) > 0 else 0`, and the three
note-carrying fallback dicts. -/
def check_outliers_col (nrows : Nat) (col : Column) (t : ℚ) : OutlierResult :=
  if col.isNumeric then
    let nn := nonNullIdx col.cells
    if 0 < nn.length then
      let mean := colMean col
      let svar := colSVar col
      if 0 < svar then
        let flagged := nn.filter fun p => zExceeds (p.2.toRat - mean) svar t
        .stats flagged.length nrows
          (if 0 < nrows then (flagged.length : ℚ) / (nrows : ℚ) else 0)
          ((flagged.map Prod.fst).take 100) mean svar t
      else
        .zeroVariance 0 nrows 0 [] mean 0 t "標準偏差が0のため異常値なし"
    else
      .noData 0 0 0 [] "データなし"
  else
    .notNumeric "数値型ではないためスキップ"

/-- `check_outliers` (lines 155-226): the loop over `df.columns`. -/
def check_outliers (df : Table) (t : ℚ) : List (String × OutlierResult) :=
  df.cols.map fun p => (p.1, check_outliers_col df.nrows p.2 t)

/-- `perform_checks` (lines 229-244): the dict with exactly the three keys
`null_check`, `duplicate_check`, `outlier_check`. -/
structure CheckReport where
  null_check : List (String × NullResult)
  duplicate_check : List (String × DupResult)
  outlier_check : List (String × OutlierResult)
deriving DecidableEq, Repr

/-- `perform_checks` (lines 240-244). -/
def perform_checks (df : Table) (t : ℚ) : CheckReport :=
  { null_check := check_null df
    duplicate_check := check_duplicates df
    outlier_check := check_outliers df t }

/-- The result-assembly loop of `check_file` (lines 263-265): one report per sheet,
in dataset order (file loading and JSON output are out of scope). -/
def check_file_results (ds : List (String × Table)) (t : ℚ) : List (String × CheckReport) :=
  ds.map fun p => (p.1, perform_checks p.2 t)

/-! ### Helper lemmas -/

theorem uniqueFirstF_congr {α : Type} [DecidableEq α] :
    ∀ (n m : Nat) (l : List α), l.length ≤ n → l.length ≤ m →
      uniqueFirstF n l = uniqueFirstF m l := by
  intro n
  induction n with
  | zero =>
    intro m l hn hm
    cases l with
    | nil => cases m <;> rfl
    | cons a t => simp at hn
  | succ n ih =>
    intro m l hn hm
    cases l with
    | nil => cases m <;> rfl
    | cons a t =>
      cases m with
      | zero => simp at hm
      | succ m =>
        have hn' : t.length ≤ n := by simpa using hn
        have hm' : t.length ≤ m := by simpa using hm
        have hf := t.length_filter_le fun b => b ≠ a
        simp only [uniqueFirstF, List.cons.injEq, true_and]
        exact ih m _ (le_trans hf hn') (le_trans hf hm')

theorem mem_uniqueFirstF {α : Type} [DecidableEq α] :
    ∀ (n : Nat) (l : List α), l.length ≤ n → ∀ b, (b ∈ uniqueFirstF n l ↔ b ∈ l) := by
  intro n
  induction n with
  | zero =>
    intro l h b
    cases l with
    | nil => simp [uniqueFirstF]
    | cons a t => simp at h
  | succ n ih =>
    intro l h b
    cases l with
    | nil => simp [uniqueFirstF]
    | cons a t =>
      have ht : t.length ≤ n := by simpa using h
      have hf := le_trans (t.length_filter_le fun b => b ≠ a) ht
      simp only [uniqueFirstF, List.mem_cons]
      by_cases hb : b = a
      · subst hb; simp
      · simp only [hb, false_or]
        rw [ih _ hf b]
        simp [List.mem_filter, hb]

theorem mem_uniqueFirst {α : Type} [DecidableEq α] (l : List α) (b : α) :
    b ∈ uniqueFirst l ↔ b ∈ l :=
  mem_uniqueFirstF l.length l le_rfl b

theorem nodup_uniqueFirstF {α : Type} [DecidableEq α] :
    ∀ (n : Nat) (l : List α), l.length ≤ n → (uniqueFirstF n l).Nodup := by
  intro n
  induction n with
  | zero =>
    intro l h
    cases l with
    | nil => simp [uniqueFirstF]
    | cons a t => simp at h
  | succ n ih =>
    intro l h
    cases l with
    | nil => simp [uniqueFirstF]
    | cons a t =>
      have ht : t.length ≤ n := by simpa using h
      have hf := le_trans (t.length_filter_le fun b => b ≠ a) ht
      simp only [uniqueFirstF]
      refine List.nodup_cons.mpr ⟨?_, ih _ hf⟩
      intro hmem
      rw [mem_uniqueFirstF n _ hf] at hmem
      simp [List.mem_filter] at hmem

theorem nodup_uniqueFirst {α : Type} [DecidableEq α] (l : List α) :
    (uniqueFirst l).Nodup :=
  nodup_uniqueFirstF l.length l le_rfl

theorem length_uniqueFirstF_le {α : Type} [DecidableEq α] :
    ∀ (n : Nat) (l : List α), (uniqueFirstF n l).length ≤ l.length := by
  intro n
  induction n with
  | zero => intro l; cases l <;> simp [uniqueFirstF]
  | succ n ih =>
    intro l
    cases l with
    | nil => simp [uniqueFirstF]
    | cons a t =>
      simp only [uniqueFirstF, List.length_cons]
      exact Nat.succ_le_succ (le_trans (ih _) (t.length_filter_le _))

theorem length_uniqueFirst_le {α : Type} [DecidableEq α] (l : List α) :
    (uniqueFirst l).length ≤ l.length :=
  length_uniqueFirstF_le l.length l

theorem length_uniqueFirst_eq_card {α : Type} [DecidableEq α] (l : List α) :
    (uniqueFirst l).length = l.toFinset.card := by
  have h1 : (uniqueFirst l).toFinset = l.toFinset := by
    ext b
    simp [List.mem_toFinset, mem_uniqueFirst]
  rw [← h1, List.toFinset_card_of_nodup (nodup_uniqueFirst l)]

theorem uniqueFirstF_filter {α : Type} [DecidableEq α] (p : α → Bool) :
    ∀ (n : Nat) (l : List α), l.length ≤ n →
      uniqueFirstF n (l.filter p) = (uniqueFirstF n l).filter p := by
  intro n
  induction n with
  | zero =>
    intro l h
    cases l with
    | nil => simp [uniqueFirstF]
    | cons a t => simp at h
  | succ n ih =>
    intro l h
    cases l with
    | nil => simp [uniqueFirstF]
    | cons a t =>
      have ht : t.length ≤ n := by simpa using h
      by_cases hpa : p a
      · rw [List.filter_cons, if_pos hpa]
        simp only [uniqueFirstF, List.filter_cons, if_pos hpa, List.cons.injEq, true_and]
        have hcomm : (t.filter p).filter (fun b => b ≠ a) = (t.filter fun b => b ≠ a).filter p := by
          simp only [List.filter_filter]
          exact List.filter_congr fun b _ => by rw [Bool.and_comm]
        rw [hcomm]
        exact ih _ (le_trans (t.length_filter_le _) ht)
      · rw [List.filter_cons, if_neg hpa, uniqueFirstF, List.filter_cons, if_neg hpa]
        have hlow : uniqueFirstF (n + 1) (t.filter p) = uniqueFirstF n (t.filter p) :=
          uniqueFirstF_congr (n + 1) n _
            (le_trans (t.length_filter_le p) (le_trans ht (Nat.le_succ n)))
            (le_trans (t.length_filter_le p) ht)
        have hfe : (t.filter fun b => b ≠ a).filter p = t.filter p := by
          rw [List.filter_filter]
          refine List.filter_congr fun b hb => ?_
          cases hpb : p b
          · simp
          · have hba : ¬ b = a := fun hEq => hpa (by rw [← hEq]; exact hpb)
            simp [hba]
        rw [hlow, ← ih _ (le_trans (t.length_filter_le _) ht), hfe]

theorem uniqueFirst_filter {α : Type} [DecidableEq α] (p : α → Bool) (l : List α) :
    uniqueFirst (l.filter p) = (uniqueFirst l).filter p := by
  unfold uniqueFirst
  rw [uniqueFirstF_congr (l.filter p).length l.length (l.filter p) le_rfl (l.length_filter_le p)]
  exact uniqueFirstF_filter p l.length l le_rfl

theorem mem_nonNullIdx (cells : List (Option Cell)) (j : Nat) (v : Cell) :
    (j, v) ∈ nonNullIdx cells ↔ cells[j]? = some (some v) := by
  unfold nonNullIdx
  rw [List.mem_filterMap]
  constructor
  · rintro ⟨⟨i, o⟩, hmem, heq⟩
    cases o with
    | none => simp at heq
    | some w =>
      simp only [Option.map_some'] at heq
      injection heq with heq
      injection heq with h1 h2
      subst h1; subst h2
      exact List.mem_enum_iff_getElem?.mp hmem
  · intro h
    exact ⟨(j, some v), List.mem_enum_iff_getElem?.mpr h, rfl⟩

theorem filterMap_pair_map_fst (l : List (Nat × Option Cell)) :
    (l.filterMap fun p => p.2.map fun v => (p.1, v)).map Prod.fst
      = (l.filter fun p => p.2.isSome).map Prod.fst := by
  induction l with
  | nil => rfl
  | cons p t ih =>
    cases hp : p.2 <;> simp [List.filterMap_cons, List.filter_cons, hp, ih]

theorem nonNullIdx_map_fst_sublist (cells : List (Option Cell)) :
    List.Sublist ((nonNullIdx cells).map Prod.fst) (List.range cells.length) := by
  unfold nonNullIdx
  rw [filterMap_pair_map_fst, ← List.enum_map_fst cells]
  exact (List.filter_sublist _).map _

theorem nullIdxAll_sublist (cells : List (Option Cell)) :
    List.Sublist (nullIdxAll cells) (List.range cells.length) := by
  unfold nullIdxAll
  rw [← List.enum_map_fst cells]
  exact (List.filter_sublist _).map _

theorem mem_nullIdxAll (cells : List (Option Cell)) (j : Nat) :
    j ∈ nullIdxAll cells ↔ cells[j]? = some none := by
  unfold nullIdxAll
  rw [List.mem_map]
  constructor
  · rintro ⟨⟨i, o⟩, hmem, rfl⟩
    rw [List.mem_filter] at hmem
    obtain ⟨hmem, hnone⟩ := hmem
    have ho : o = none := Option.isNone_iff_eq_none.mp (by simpa using hnone)
    subst ho
    exact List.mem_enum_iff_getElem?.mp hmem
  · intro h
    exact ⟨(j, none), List.mem_filter.mpr ⟨List.mem_enum_iff_getElem?.mpr h, rfl⟩, rfl⟩

theorem length_nullIdxAll (cells : List (Option Cell)) :
    (nullIdxAll cells).length = cells.countP fun o => o.isNone := by
  unfold nullIdxAll
  rw [List.length_map, ← List.countP_eq_length_filter]
  conv_rhs => rw [← List.enum_map_snd cells]
  rw [List.countP_map]
  rfl

theorem countP_isNone_add_countP_isSome (cells : List (Option Cell)) :
    (cells.countP fun o => o.isNone) + (cells.countP fun o => o.isSome) = cells.length := by
  induction cells with
  | nil => rfl
  | cons o t ih => cases o <;> simp [List.countP_cons, ← ih] <;> omega

theorem zExceeds_eq_true_iff (dev svar t : ℚ) (hv : 0 < svar) :
    zExceeds dev svar t = true ↔ (t : ℝ) < |(dev : ℝ)| / Real.sqrt (svar : ℝ) := by
  have hv' : (0 : ℝ) < (svar : ℝ) := by exact_mod_cast hv
  have hs : 0 < Real.sqrt (svar : ℝ) := Real.sqrt_pos.mpr hv'
  unfold zExceeds
  simp only [Bool.or_eq_true, decide_eq_true_eq]
  rcases lt_or_le t 0 with ht | ht
  · constructor
    · intro _
      have h0 : (0 : ℝ) ≤ |(dev : ℝ)| / Real.sqrt (svar : ℝ) :=
        div_nonneg (abs_nonneg _) hs.le
      have ht' : (t : ℝ) < 0 := by exact_mod_cast ht
      exact lt_of_lt_of_le ht' h0
    · intro _
      exact Or.inl ht
  · have hteq : ¬ t < 0 := not_lt.mpr ht
    have ht' : (0 : ℝ) ≤ (t : ℝ) := by exact_mod_cast ht
    rw [lt_div_iff₀ hs]
    constructor
    · rintro (h | h)
      · exact absurd h hteq
      · have hR : (t : ℝ) ^ 2 * (svar : ℝ) < (dev : ℝ) ^ 2 := by exact_mod_cast h
        have h1 : ((t : ℝ) * Real.sqrt (svar : ℝ)) ^ 2 < |(dev : ℝ)| ^ 2 := by
          rw [mul_pow, Real.sq_sqrt hv'.le, sq_abs]
          exact hR
        exact lt_of_pow_lt_pow_left₀ 2 (abs_nonneg _) h1
    · intro h
      right
      have h0 : 0 ≤ (t : ℝ) * Real.sqrt (svar : ℝ) := mul_nonneg ht' hs.le
      have h1 : ((t : ℝ) * Real.sqrt (svar : ℝ)) ^ 2 < |(dev : ℝ)| ^ 2 :=
        pow_lt_pow_left₀ h h0 two_ne_zero
      rw [mul_pow, Real.sq_sqrt hv'.le, sq_abs] at h1
      exact_mod_cast h1

theorem zExceeds_anti {dev svar t₁ t₂ : ℚ} (hv : 0 < svar) (h12 : t₁ ≤ t₂) :
    zExceeds dev svar t₂ = true → zExceeds dev svar t₁ = true := by
  unfold zExceeds
  simp only [Bool.or_eq_true, decide_eq_true_eq]
  rintro (h | h)
  · exact Or.inl (lt_of_le_of_lt h12 h)
  · by_cases h1 : t₁ < 0
    · exact Or.inl h1
    · push_neg at h1
      right
      have hsq : t₁ ^ 2 ≤ t₂ ^ 2 := by nlinarith
      nlinarith

/-! ### Claim theorems -/

/-- C5: for every column, the Null Detector returns `null_count` equal to the number
of missing entries (so `null_count` plus the count of present values equals
`total_count`), `total_count` equal to the table's row count, `null_ratio` equal to
`null_count / total_count` when positive and 0 otherwise, and `null_indices` equal
to the row indices of the missing entries in row-index order truncated to the first
100, with the count fields reflecting the true totals over the full data. -/
theorem check_null_col_spec (nrows : Nat) (cells : List (Option Cell))
    (hlen : cells.length = nrows) :
    (check_null_col nrows cells).null_count = cells.countP (fun o => o.isNone) ∧
    (check_null_col nrows cells).null_count + cells.countP (fun o => o.isSome) = nrows ∧
    (check_null_col nrows cells).total_count = nrows ∧
    (check_null_col nrows cells).null_ratio =
      (if 0 < nrows then ((check_null_col nrows cells).null_count : ℚ) / (nrows : ℚ) else 0) ∧
    ∃ allIdx : List Nat,
      (check_null_col nrows cells).null_indices = allIdx.take 100 ∧
      allIdx.Pairwise (· < ·) ∧
      (∀ j : Nat, j ∈ allIdx ↔ cells[j]? = some none) ∧
      allIdx.length = (check_null_col nrows cells).null_count := by
  refine ⟨rfl, ?_, rfl, rfl, nullIdxAll cells, rfl, ?_, mem_nullIdxAll cells, length_nullIdxAll cells⟩
  · show (cells.countP fun o => o.isNone) + (cells.countP fun o => o.isSome) = nrows
    rw [countP_isNone_add_countP_isSome]
    exact hlen
  · exact List.Pairwise.sublist (nullIdxAll_sublist cells) (List.pairwise_lt_range _)

/-- Witness for C5 at the spec scenario column `[1, 2, 2, 3, None]`. -/
theorem check_null_col_spec_witness :
    (([some (Cell.num 1), some (Cell.num 2), some (Cell.num 2), some (Cell.num 3), none]
        : List (Option Cell)).length = 5) ∧
    (check_null_col 5 [some (Cell.num 1), some (Cell.num 2), some (Cell.num 2),
        some (Cell.num 3), none]).null_count
      + ([some (Cell.num 1), some (Cell.num 2), some (Cell.num 2), some (Cell.num 3), none]
          : List (Option Cell)).countP (fun o => o.isSome) = 5 :=
  ⟨by decide, (check_null_col_spec 5 _ (by decide)).2.1⟩

/-- C6: for every column, the Duplicate Detector, after excluding missing entries,
returns `total_count` equal to the count of non-missing values, `unique_count` equal
to the count of distinct non-missing values (equality by value), `duplicate_count`
equal to `total_count` minus `unique_count` (nonnegative, and 0 when the non-missing
values are pairwise distinct), `duplicate_ratio` equal to
`duplicate_count / total_count` (0 when `total_count` is 0), and `duplicated_values`
equal to the distinct values occurring more than once among the non-missing values,
in first-occurrence order, truncated to the first 100. -/
theorem check_duplicates_col_spec (cells : List (Option Cell)) :
    (check_duplicates_col cells).total_count = (cells.filterMap id).length ∧
    (check_duplicates_col cells).unique_count = (cells.filterMap id).toFinset.card ∧
    (check_duplicates_col cells).duplicate_count =
      ((cells.filterMap id).length : Int) - ((cells.filterMap id).toFinset.card : Int) ∧
    0 ≤ (check_duplicates_col cells).duplicate_count ∧
    ((cells.filterMap id).Nodup → (check_duplicates_col cells).duplicate_count = 0) ∧
    (check_duplicates_col cells).duplicate_ratio =
      (if 0 < (cells.filterMap id).length
       then ((check_duplicates_col cells).duplicate_count : ℚ) / ((cells.filterMap id).length : ℚ)
       else 0) ∧
    ∃ dupAll : List Cell,
      (check_duplicates_col cells).duplicated_values = dupAll.take 100 ∧
      dupAll.Nodup ∧
      (∀ v : Cell, v ∈ dupAll ↔ 1 < (cells.filterMap id).count v) ∧
      dupAll = (uniqueFirst (cells.filterMap id)).filter fun v => 1 < (cells.filterMap id).count v := by
  refine ⟨rfl, length_uniqueFirst_eq_card _, ?_, ?_, ?_, rfl,
    uniqueFirst ((cells.filterMap id).filter fun v => 1 < (cells.filterMap id).count v),
    rfl, nodup_uniqueFirst _, ?_, uniqueFirst_filter _ _⟩
  · show ((cells.filterMap id).length : Int) - ((uniqueFirst (cells.filterMap id)).length : Int) = _
    rw [length_uniqueFirst_eq_card]
  · show (0 : Int) ≤ ((cells.filterMap id).length : Int) - ((uniqueFirst (cells.filterMap id)).length : Int)
    have h := length_uniqueFirst_le (cells.filterMap id)
    omega
  · intro hnd
    show ((cells.filterMap id).length : Int) - ((uniqueFirst (cells.filterMap id)).length : Int) = 0
    rw [length_uniqueFirst_eq_card, List.toFinset_card_of_nodup hnd]
    omega
  · intro v
    rw [mem_uniqueFirst, List.mem_filter]
    constructor
    · rintro ⟨-, h⟩
      exact of_decide_eq_true h
    · intro h
      exact ⟨List.count_pos_iff.mp (lt_trans one_pos h), decide_eq_true h⟩

/-- Witness for C6 at the spec scenario column `[1, 2, 2, 3, None]`. -/
theorem check_duplicates_col_spec_witness :
    (check_duplicates_col [some (Cell.num 1), some (Cell.num 2), some (Cell.num 2),
        some (Cell.num 3), none]).duplicate_count
      = (([some (Cell.num 1), some (Cell.num 2), some (Cell.num 2), some (Cell.num 3), none]
            : List (Option Cell)).filterMap id).length
        - ((([some (Cell.num 1), some (Cell.num 2), some (Cell.num 2), some (Cell.num 3), none]
            : List (Option Cell)).filterMap id).toFinset.card : Int) :=
  (check_duplicates_col_spec _).2.2.1

/-- C8: a non-numeric column gets a note-only outlier result, and a numeric column
with zero non-missing values gets exactly
`outlier_count 0, total_count 0, outlier_ratio 0, outlier_indices [], note` with the
no-data note. -/
theorem check_outliers_col_skip_spec (nrows : Nat) (col : Column) (t : ℚ) :
    (col.isNumeric = false →
      check_outliers_col nrows col t = .notNumeric "数値型ではないためスキップ") ∧
    (col.isNumeric = true → nonNullIdx col.cells = [] →
      check_outliers_col nrows col t = .noData 0 0 0 [] "データなし") := by
  constructor
  · intro h
    simp [check_outliers_col, h]
  · intro h hnn
    simp [check_outliers_col, h, hnn]

/-- Witness for C8: a text column is skipped with the note, and an all-missing
numeric column reports the no-data result. -/
theorem check_outliers_col_skip_spec_witness :
    check_outliers_col 2 ⟨false, [some (Cell.str "a"), none]⟩ 3
      = .notNumeric "数値型ではないためスキップ" ∧
    check_outliers_col 4 ⟨true, [none, none, none, none]⟩ 3
      = .noData 0 0 0 [] "データなし" :=
  ⟨(check_outliers_col_skip_spec 2 ⟨false, [some (Cell.str "a"), none]⟩ 3).1 rfl,
   (check_outliers_col_skip_spec 4 ⟨true, [none, none, none, none]⟩ 3).2 rfl (by decide)⟩

/-- C10: each of the three detector maps has exactly the table's column names as its
key sequence, and a non-numeric column still receives a (note-only) entry in the
outlier map — no column is silently absent from any detector's output. -/
theorem check_maps_cover_columns (df : Table) (t : ℚ) :
    (check_null df).map Prod.fst = df.cols.map Prod.fst ∧
    (check_duplicates df).map Prod.fst = df.cols.map Prod.fst ∧
    (check_outliers df t).map Prod.fst = df.cols.map Prod.fst ∧
    (∀ (i : Nat) (p : String × Column), df.cols[i]? = some p → p.2.isNumeric = false →
      (check_outliers df t)[i]? = some (p.1, .notNumeric "数値型ではないためスキップ")) := by
  refine ⟨?_, ?_, ?_, ?_⟩
  · rw [check_null, List.map_map]; rfl
  · rw [check_duplicates, List.map_map]; rfl
  · rw [check_outliers, List.map_map]; rfl
  · intro i p hip hnum
    rw [check_outliers, List.getElem?_map, hip]
    simp [check_outliers_col, hnum]

/-- Witness for C10 on a one-column table whose single column is textual. -/
theorem check_maps_cover_columns_witness :
    (check_outliers ⟨1, [("name", ⟨false, [some (Cell.str "x")]⟩)]⟩ 3)[0]?
      = some ("name", .notNumeric "数値型ではないためスキップ") :=
  (check_maps_cover_columns ⟨1, [("name", ⟨false, [some (Cell.str "x")]⟩)]⟩ 3).2.2.2
    0 ("name", ⟨false, [some (Cell.str "x")]⟩) rfl rfl

/-- C7: outlier detection is monotone in the threshold — for a fixed column, the
outlier count at the larger of two thresholds is at most the count at the smaller. -/
theorem check_outliers_threshold_mono (nrows : Nat) (col : Column) (t₁ t₂ : ℚ)
    (h12 : t₁ ≤ t₂) :
    (check_outliers_col nrows col t₂).countOf ≤ (check_outliers_col nrows col t₁).countOf := by
  by_cases hnum : col.isNumeric = true
  · by_cases hne : 0 < (nonNullIdx col.cells).length
    · by_cases hsv : 0 < colSVar col
      · simp only [check_outliers_col, hnum, hne, hsv, if_true, OutlierResult.countOf]
        rw [← List.countP_eq_length_filter, ← List.countP_eq_length_filter]
        exact List.countP_mono_left fun p hp h => zExceeds_anti hsv h12 h
      · simp [check_outliers_col, hnum, hne, hsv, OutlierResult.countOf]
    · simp [check_outliers_col, hnum, hne, OutlierResult.countOf]
  · simp [check_outliers_col, hnum, OutlierResult.countOf]

/-- Witness for C7 with thresholds 1 ≤ 2 on the column `[1, 2, 3]`. -/
theorem check_outliers_threshold_mono_witness :
    ((1 : ℚ) ≤ 2) ∧
    (check_outliers_col 3 ⟨true, [some (Cell.num 1), some (Cell.num 2), some (Cell.num 3)]⟩ 2).countOf
      ≤ (check_outliers_col 3 ⟨true, [some (Cell.num 1), some (Cell.num 2), some (Cell.num 3)]⟩ 1).countOf :=
  ⟨by decide,
   check_outliers_threshold_mono 3 ⟨true, [some (Cell.num 1), some (Cell.num 2), some (Cell.num 3)]⟩
     1 2 (by decide)⟩

/-- C4: a numeric column whose non-missing values are pairwise identical (which
covers the single-value case) yields, for every threshold, the zero-variance result:
count 0, `total_count` the row count, ratio 0, no indices, the mean, `std` 0, the
threshold echoed, and the zero-variance note. -/
theorem check_outliers_col_zero_variance (nrows : Nat) (col : Column) (t : ℚ)
    (hnum : col.isNumeric = true)
    (hne : 0 < (nonNullIdx col.cells).length)
    (hconst : ∀ x ∈ (nonNullIdx col.cells).map (fun p => p.2.toRat),
      ∀ y ∈ (nonNullIdx col.cells).map (fun p => p.2.toRat), x = y) :
    check_outliers_col nrows col t =
      .zeroVariance 0 nrows 0 [] (colMean col) 0 t "標準偏差が0のため異常値なし" := by
  have hsv : colSVar col = 0 := by
    set xs := (nonNullIdx col.cells).map (fun p => p.2.toRat) with hxs
    have hlen : 0 < xs.length := by
      rw [hxs, List.length_map]
      exact hne
    obtain ⟨c, hc⟩ : ∃ c, ∀ x ∈ xs, x = c := by
      cases hx : xs with
      | nil => rw [hx] at hlen; simp at hlen
      | cons a l => exact ⟨a, fun x hx' => hconst x (hx ▸ hx') a (hx ▸ List.mem_cons_self a l)⟩
    have hmean : colMean col = c := by
      rw [colMean, ← hxs]
      rw [List.sum_eq_card_nsmul xs c hc, nsmul_eq_mul]
      have hne0 : (xs.length : ℚ) ≠ 0 := Nat.cast_ne_zero.mpr (Nat.pos_iff_ne_zero.mp hlen)
      exact mul_div_cancel_left₀ c hne0
    rw [colSVar, ← hxs, hmean]
    have hz : (xs.map fun x => (x - c) ^ 2).sum = 0 := by
      apply List.sum_eq_zero
      intro y hy
      obtain ⟨x, hx', rfl⟩ := List.mem_map.mp hy
      rw [hc x hx']
      ring
    rw [hz, zero_div]
  have hnsv : ¬ 0 < colSVar col := by rw [hsv]; exact lt_irrefl 0
  simp [check_outliers_col, hnum, hne, hnsv]

/-- Witness for C4 on the constant column `[5, None, 5]` with threshold 10. -/
theorem check_outliers_col_zero_variance_witness :
    check_outliers_col 3 ⟨true, [some (Cell.num 5), none, some (Cell.num 5)]⟩ 10
      = .zeroVariance 0 3 0 [] 5 0 10 "標準偏差が0のため異常値なし" :=
  (check_outliers_col_zero_variance 3 ⟨true, [some (Cell.num 5), none, some (Cell.num 5)]⟩ 10
    rfl (by decide) (by decide)).trans (by decide)

/-- C2 counterexample: the code performs no threshold validation.  With the
non-positive threshold −1 the Outlier Detector still scans the column and produces a
full per-column statistics result (here flagging every value) instead of raising any
error before scanning. -/
theorem check_outliers_negative_threshold_cex :
    check_outliers_col 3 ⟨true, [some (Cell.num 1), some (Cell.num 2), some (Cell.num 3)]⟩ (-1)
      = .stats 3 3 1 [0, 1, 2] 2 1 (-1) := by decide

/-- C2 amended: the Outlier Detector accepts any threshold and uses it directly in
the `z > threshold` comparison; with a negative threshold every non-missing value of
a positive-variance numeric column is flagged and a per-column result is produced. -/
theorem check_outliers_no_threshold_validation (nrows : Nat) (col : Column) (t : ℚ)
    (hnum : col.isNumeric = true)
    (hne : 0 < (nonNullIdx col.cells).length)
    (hsv : 0 < colSVar col)
    (ht : t < 0) :
    check_outliers_col nrows col t =
      .stats (nonNullIdx col.cells).length nrows
        (if 0 < nrows then ((nonNullIdx col.cells).length : ℚ) / (nrows : ℚ) else 0)
        (((nonNullIdx col.cells).map Prod.fst).take 100) (colMean col) (colSVar col) t := by
  have hall : (nonNullIdx col.cells).filter
      (fun p => zExceeds (p.2.toRat - colMean col) (colSVar col) t) = nonNullIdx col.cells := by
    rw [List.filter_eq_self]
    intro p hp
    unfold zExceeds
    simp [ht]
  simp [check_outliers_col, hnum, hne, hsv, hall]

/-- Witness for C2's amended statement at threshold −2 on the column `[1, 2, 3]`. -/
theorem check_outliers_no_threshold_validation_witness :
    ((-2 : ℚ) < 0) ∧
    check_outliers_col 3 ⟨true, [some (Cell.num 1), some (Cell.num 2), some (Cell.num 3)]⟩ (-2)
      = .stats (nonNullIdx [some (Cell.num 1), some (Cell.num 2), some (Cell.num 3)]).length 3
          (if 0 < 3
           then ((nonNullIdx [some (Cell.num 1), some (Cell.num 2), some (Cell.num 3)]).length : ℚ) / (3 : ℚ)
           else 0)
          (((nonNullIdx [some (Cell.num 1), some (Cell.num 2), some (Cell.num 3)]).map Prod.fst).take 100)
          (colMean ⟨true, [some (Cell.num 1), some (Cell.num 2), some (Cell.num 3)]⟩)
          (colSVar ⟨true, [some (Cell.num 1), some (Cell.num 2), some (Cell.num 3)]⟩) (-2) :=
  ⟨by decide,
   check_outliers_no_threshold_validation 3
     ⟨true, [some (Cell.num 1), some (Cell.num 2), some (Cell.num 3)]⟩ (-2)
     rfl (by decide) (by decide) (by decide)⟩

/-- C3 counterexample: for a numeric column with no non-missing values in a 2-row
table, the outlier result's `total_count` is 0 — the non-missing count — and not the
full row count 2, so "total_count is the full table row count" fails for that
column. -/
theorem outlier_noData_total_count_cex :
    (check_outliers_col 2 ⟨true, [none, none]⟩ 3).totalOf = some 0 ∧
    (check_outliers_col 2 ⟨true, [none, none]⟩ 3).totalOf ≠ some 2 := by decide

/-- C3 amended: `duplicate_ratio` always uses the non-missing count as denominator,
while for every numeric column with at least one non-missing value the outlier
result's `total_count` is the full table row count and `outlier_ratio` is
`outlier_count / row count` (0 when the row count is 0); only the no-data case
reports `total_count` 0 instead of the row count. -/
theorem ratio_denominator_policy :
    (∀ cells : List (Option Cell),
      (check_duplicates_col cells).duplicate_ratio =
        (if 0 < (cells.filterMap id).length
         then ((check_duplicates_col cells).duplicate_count : ℚ) / ((cells.filterMap id).length : ℚ)
         else 0)) ∧
    (∀ (nrows : Nat) (col : Column) (t : ℚ), col.isNumeric = true →
      0 < (nonNullIdx col.cells).length →
      (check_outliers_col nrows col t).totalOf = some nrows ∧
      (check_outliers_col nrows col t).ratioOf =
        some (if 0 < nrows
              then ((check_outliers_col nrows col t).countOf : ℚ) / (nrows : ℚ)
              else 0)) := by
  constructor
  · intro cells
    rfl
  · intro nrows col t hnum hne
    by_cases hsv : 0 < colSVar col
    · constructor
      · simp [check_outliers_col, hnum, hne, hsv, OutlierResult.totalOf]
      · simp [check_outliers_col, hnum, hne, hsv, OutlierResult.ratioOf, OutlierResult.countOf]
    · constructor
      · simp [check_outliers_col, hnum, hne, hsv, OutlierResult.totalOf]
      · simp [check_outliers_col, hnum, hne, hsv, OutlierResult.ratioOf, OutlierResult.countOf,
          zero_div, ite_self]

/-- Witness for C3's amended statement: the duplicate ratio of `[7, 7, None]` and
the outlier total/ratio of the 3-row column `[1, 2, 3]` at threshold 1. -/
theorem ratio_denominator_policy_witness :
    ((check_duplicates_col [some (Cell.num 7), some (Cell.num 7), none]).duplicate_ratio =
      (if 0 < (([some (Cell.num 7), some (Cell.num 7), none]
            : List (Option Cell)).filterMap id).length
       then ((check_duplicates_col [some (Cell.num 7), some (Cell.num 7), none]).duplicate_count : ℚ)
          / ((([some (Cell.num 7), some (Cell.num 7), none]
              : List (Option Cell)).filterMap id).length : ℚ)
       else 0)) ∧
    (check_outliers_col 3 ⟨true, [some (Cell.num 1), some (Cell.num 2), some (Cell.num 3)]⟩ 1).totalOf
      = some 3 ∧
    (check_outliers_col 3 ⟨true, [some (Cell.num 1), some (Cell.num 2), some (Cell.num 3)]⟩ 1).ratioOf
      = some (if 0 < 3
              then ((check_outliers_col 3
                  ⟨true, [some (Cell.num 1), some (Cell.num 2), some (Cell.num 3)]⟩ 1).countOf : ℚ) / (3 : ℚ)
              else 0) :=
  ⟨ratio_denominator_policy.1 [some (Cell.num 7), some (Cell.num 7), none],
   ratio_denominator_policy.2 3 ⟨true, [some (Cell.num 1), some (Cell.num 2), some (Cell.num 3)]⟩ 1
     rfl (by decide)⟩

/-- C1: for a numeric column with positive sample variance, the detector computes
the mean and the sample variance (denominator n−1, so reported std = √svar) over the
non-missing values only, flags exactly the non-missing values whose z-score
`|value − mean| / std` strictly exceeds the threshold, and returns the flagged
original row indices in row order truncated to the first 100, with the untruncated
count, the full row count, the ratio, and mean/variance/threshold echoed in the
result. -/
theorem check_outliers_col_stats_spec (nrows : Nat) (col : Column) (t : ℚ)
    (hnum : col.isNumeric = true)
    (hne : 0 < (nonNullIdx col.cells).length)
    (hsv : 0 < colSVar col) :
    ∃ allIdx : List Nat,
      check_outliers_col nrows col t =
        .stats allIdx.length nrows
          (if 0 < nrows then (allIdx.length : ℚ) / (nrows : ℚ) else 0)
          (allIdx.take 100) (colMean col) (colSVar col) t ∧
      colMean col = ((nonNullIdx col.cells).map fun p => p.2.toRat).sum
          / ((((nonNullIdx col.cells).map fun p => p.2.toRat).length : Nat) : ℚ) ∧
      colSVar col = ((((nonNullIdx col.cells).map fun p => p.2.toRat).map
          fun x => (x - colMean col) ^ 2).sum)
          / ((((nonNullIdx col.cells).map fun p => p.2.toRat).length - 1 : Nat) : ℚ) ∧
      allIdx.Pairwise (· < ·) ∧
      (∀ j : Nat, j ∈ allIdx ↔ ∃ v : Cell, col.cells[j]? = some (some v) ∧
        ((t : ℚ) : ℝ) < |((v.toRat : ℚ) : ℝ) - ((colMean col : ℚ) : ℝ)|
          / Real.sqrt ((colSVar col : ℚ) : ℝ)) := by
  refine ⟨((nonNullIdx col.cells).filter
      fun p => zExceeds (p.2.toRat - colMean col) (colSVar col) t).map Prod.fst,
    ?_, rfl, rfl, ?_, ?_⟩
  · simp only [check_outliers_col, hnum, hne, hsv, if_true, List.length_map]
  · have h1 : List.Sublist
        (((nonNullIdx col.cells).filter
          fun p => zExceeds (p.2.toRat - colMean col) (colSVar col) t).map Prod.fst)
        ((nonNullIdx col.cells).map Prod.fst) :=
      (List.filter_sublist _).map _
    exact List.Pairwise.sublist (h1.trans (nonNullIdx_map_fst_sublist col.cells))
      (List.pairwise_lt_range _)
  · intro j
    constructor
    · intro hj
      obtain ⟨p, hp, rfl⟩ := List.mem_map.mp hj
      obtain ⟨hpnn, hpred⟩ := List.mem_filter.mp hp
      refine ⟨p.2, (mem_nonNullIdx col.cells p.1 p.2).mp (by simpa using hpnn), ?_⟩
      have h := (zExceeds_eq_true_iff _ _ _ hsv).mp hpred
      have hcast : ((p.2.toRat - colMean col : ℚ) : ℝ)
          = ((p.2.toRat : ℚ) : ℝ) - ((colMean col : ℚ) : ℝ) := by push_cast; ring
      rw [hcast] at h
      exact h
    · rintro ⟨v, hv, hlt⟩
      refine List.mem_map.mpr ⟨(j, v),
        List.mem_filter.mpr ⟨(mem_nonNullIdx col.cells j v).mpr hv, ?_⟩, rfl⟩
      rw [zExceeds_eq_true_iff _ _ _ hsv]
      have hcast : ((v.toRat - colMean col : ℚ) : ℝ)
          = ((v.toRat : ℚ) : ℝ) - ((colMean col : ℚ) : ℝ) := by push_cast; ring
      rw [hcast]
      exact hlt

/-- Witness for C1 at the spec scenario `[10, 10, 10, 10, 1000]` with threshold 1
(the value 1000 at row index 4 is the single outlier). -/
theorem check_outliers_col_stats_spec_witness :
    (0 < colSVar ⟨true, [some (Cell.num 10), some (Cell.num 10), some (Cell.num 10),
        some (Cell.num 10), some (Cell.num 1000)]⟩) ∧
    ∃ allIdx : List Nat,
      check_outliers_col 5 ⟨true, [some (Cell.num 10), some (Cell.num 10), some (Cell.num 10),
          some (Cell.num 10), some (Cell.num 1000)]⟩ 1 =
        .stats allIdx.length 5
          (if 0 < 5 then (allIdx.length : ℚ) / (5 : ℚ) else 0)
          (allIdx.take 100)
          (colMean ⟨true, [some (Cell.num 10), some (Cell.num 10), some (Cell.num 10),
            some (Cell.num 10), some (Cell.num 1000)]⟩)
          (colSVar ⟨true, [some (Cell.num 10), some (Cell.num 10), some (Cell.num 10),
            some (Cell.num 10), some (Cell.num 1000)]⟩) 1 :=
  ⟨by decide,
   (check_outliers_col_stats_spec 5 ⟨true, [some (Cell.num 10), some (Cell.num 10),
       some (Cell.num 10), some (Cell.num 10), some (Cell.num 1000)]⟩ 1
     rfl (by decide) (by decide)).elim fun a h => ⟨a, h.1⟩⟩

/-- C9: the orchestrator yields one report per sheet in dataset order, each report
holding exactly the three detector maps keyed by that sheet's columns in table
order, and each column's entries in the three maps depend only on that column and
the row count — so no column's processing can affect any other column or sheet. -/
theorem perform_checks_structure :
    (∀ (ds : List (String × Table)) (t : ℚ),
      (check_file_results ds t).map Prod.fst = ds.map Prod.fst ∧
      ∀ i : Nat, (check_file_results ds t)[i]? =
        (ds[i]?).map fun p =>
          (p.1, { null_check := check_null p.2
                  duplicate_check := check_duplicates p.2
                  outlier_check := check_outliers p.2 t : CheckReport })) ∧
    (∀ (df : Table) (t : ℚ),
      (perform_checks df t).null_check.map Prod.fst = df.cols.map Prod.fst ∧
      (perform_checks df t).duplicate_check.map Prod.fst = df.cols.map Prod.fst ∧
      (perform_checks df t).outlier_check.map Prod.fst = df.cols.map Prod.fst) ∧
    (∀ (df₁ df₂ : Table) (t : ℚ) (i : Nat), df₁.nrows = df₂.nrows →
      df₁.cols[i]? = df₂.cols[i]? →
      (check_null df₁)[i]? = (check_null df₂)[i]? ∧
      (check_duplicates df₁)[i]? = (check_duplicates df₂)[i]? ∧
      (check_outliers df₁ t)[i]? = (check_outliers df₂ t)[i]?) := by
  refine ⟨?_, ?_, ?_⟩
  · intro ds t
    constructor
    · rw [check_file_results, List.map_map]; rfl
    · intro i
      rw [check_file_results, List.getElem?_map]
      rfl
  · intro df t
    refine ⟨?_, ?_, ?_⟩
    · show (check_null df).map Prod.fst = df.cols.map Prod.fst
      rw [check_null, List.map_map]; rfl
    · show (check_duplicates df).map Prod.fst = df.cols.map Prod.fst
      rw [check_duplicates, List.map_map]; rfl
    · show (check_outliers df t).map Prod.fst = df.cols.map Prod.fst
      rw [check_outliers, List.map_map]; rfl
  · intro df₁ df₂ t i hn hc
    refine ⟨?_, ?_, ?_⟩
    · rw [check_null, check_null, List.getElem?_map, List.getElem?_map, hn, hc]
    · rw [check_duplicates, check_duplicates, List.getElem?_map, List.getElem?_map, hc]
    · rw [check_outliers, check_outliers, List.getElem?_map, List.getElem?_map, hn, hc]

/-- Witness for C9's isolation clause: two one-row tables agreeing in their first
column but differing in their second produce identical first-column entries in all
three maps. -/
theorem perform_checks_structure_witness :
    (check_null ⟨1, [("a", ⟨true, [some (Cell.num 1)]⟩), ("b", ⟨false, [some (Cell.str "x")]⟩)]⟩)[0]?
      = (check_null ⟨1, [("a", ⟨true, [some (Cell.num 1)]⟩), ("c", ⟨true, [none]⟩)]⟩)[0]? ∧
    (check_duplicates ⟨1, [("a", ⟨true, [some (Cell.num 1)]⟩), ("b", ⟨false, [some (Cell.str "x")]⟩)]⟩)[0]?
      = (check_duplicates ⟨1, [("a", ⟨true, [some (Cell.num 1)]⟩), ("c", ⟨true, [none]⟩)]⟩)[0]? ∧
    (check_outliers ⟨1, [("a", ⟨true, [some (Cell.num 1)]⟩), ("b", ⟨false, [some (Cell.str "x")]⟩)]⟩ 3)[0]?
      = (check_outliers ⟨1, [("a", ⟨true, [some (Cell.num 1)]⟩), ("c", ⟨true, [none]⟩)]⟩ 3)[0]? :=
  perform_checks_structure.2.2
    ⟨1, [("a", ⟨true, [some (Cell.num 1)]⟩), ("b", ⟨false, [some (Cell.str "x")]⟩)]⟩
    ⟨1, [("a", ⟨true, [some (Cell.num 1)]⟩), ("c", ⟨true, [none]⟩)]⟩ 3 0 rfl rfl
